import Mathlib

set_option maxRecDepth 40000

/-!
Verification of the protocol core of the-voice: the ASR binary framing
protocol and its streaming send loop, the two request-signing schemes,
the synthesis JSON-lines stream consumer, and the GUI session
orchestrator.  Python functions from src/main_gui.py and
src/generate_prayer_audio.py are shallowly embedded as executable Lean
definitions over byte lists (Nat values 0..255); network and OS effects
are modelled as explicit inputs and outputs.
-/

/-! ## Byte-level utilities -/

/-- Big-endian interpretation of a byte list as a natural number. -/
def beToNat (bs : List Nat) : Nat := bs.foldl (fun a b => a * 256 + b) 0

/-- The meaning of a 4-byte big-endian unsigned encoding, as produced by
Python struct.pack with format \x22>I\x22 (defined for n < 2^32). -/
def u32be (n : Nat) : List Nat :=
  [(n >>> 24) % 256, (n >>> 16) % 256, (n >>> 8) % 256, n % 256]

/-- The 4-byte big-endian two's-complement encoding of a signed integer,
as produced by Python struct.pack with format \x22>i\x22 (defined for
-2^31 <= i < 2^31). -/
def int32be (i : Int) : List Nat := u32be ((i % 4294967296).toNat)

/-- The 8-byte big-endian encoding of a natural number below 2^64. -/
def be8 (n : Nat) : List Nat :=
  [(n >>> 56) % 256, (n >>> 48) % 256, (n >>> 40) % 256, (n >>> 32) % 256,
   (n >>> 24) % 256, (n >>> 16) % 256, (n >>> 8) % 256, n % 256]

/-- The 4-byte big-endian encoding of a 32-bit word. -/
def be4 (n : Nat) : List Nat := [(n >>> 24) % 256, (n >>> 16) % 256, (n >>> 8) % 256, n % 256]

/-- Fuel-driven worker for `chunksOf`; the fuel bounds the number of
chunks so the recursion is structural and kernel-reducible. -/
def chunksOfGo (c : Nat) : Nat → List Nat → List (List Nat)
  | 0, _ => []
  | _, [] => []
  | fuel + 1, x :: xs => (x :: xs).take c :: chunksOfGo c fuel ((x :: xs).drop c)

/-- Split a list into consecutive chunks of at most c elements, matching
the Python slicing loop for i in range(0, len(l), c) over l[i : i + c]. -/
def chunksOf (c : Nat) (l : List Nat) : List (List Nat) :=
  chunksOfGo c l.length l

/-- Hexadecimal digit character for a value 0..15. -/
def hexChar (n : Nat) : Char := "0123456789abcdef".toList.getD n '0'

/-- Lowercase hexadecimal rendering of a byte list, matching Python
hexdigest output. -/
def hexDigest (bs : List Nat) : String :=
  String.mk (bs.map (fun b => [hexChar (b / 16), hexChar (b % 16)])).flatten

/-- UTF-8 encoding of a single character. -/
def utf8Char (c : Char) : List Nat :=
  let n := c.toNat
  if n < 0x80 then [n]
  else if n < 0x800 then [0xc0 ||| (n >>> 6), 0x80 ||| (n &&& 0x3f)]
  else if n < 0x10000 then
    [0xe0 ||| (n >>> 12), 0x80 ||| ((n >>> 6) &&& 0x3f), 0x80 ||| (n &&& 0x3f)]
  else
    [0xf0 ||| (n >>> 18), 0x80 ||| ((n >>> 12) &&& 0x3f), 0x80 ||| ((n >>> 6) &&& 0x3f),
     0x80 ||| (n &&& 0x3f)]

/-- UTF-8 encoding of a string, the meaning of Python str.encode. -/
def utf8 (s : String) : List Nat := (s.toList.map utf8Char).flatten

/-! ## SHA-256 and HMAC-SHA256

Executable reference implementation of FIPS 180-4 SHA-256 and RFC 2104
HMAC over byte lists; these give meaning to the hashlib.sha256 and
hmac.new calls in the source. -/

/-- Truncation to a 32-bit word. -/
def w32 (n : Nat) : Nat := n % 4294967296

/-- Right rotation of a 32-bit word by n bits. -/
def rotr (n x : Nat) : Nat := w32 ((x >>> n) ||| (x <<< (32 - n)))

/-- The 64 SHA-256 round constants. -/
def shaK : List Nat := [
  1116352408, 1899447441, 3049323471, 3921009573, 961987163, 1508970993,
  2453635748, 2870763221, 3624381080, 310598401, 607225278, 1426881987,
  1925078388, 2162078206, 2614888103, 3248222580, 3835390401, 4022224774,
  264347078, 604807628, 770255983, 1249150122, 1555081692, 1996064986,
  2554220882, 2821834349, 2952996808, 3210313671, 3336571891, 3584528711,
  113926993, 338241895, 666307205, 773529912, 1294757372, 1396182291,
  1695183700, 1986661051, 2177026350, 2456956037, 2730485921, 2820302411,
  3259730800, 3345764771, 3516065817, 3600352804, 4094571909, 275423344,
  430227734, 506948616, 659060556, 883997877, 958139571, 1322822218,
  1537002063, 1747873779, 1955562222, 2024104815, 2227730452, 2361852424,
  2428436474, 2756734187, 3204031479, 3329325298]

/-- The SHA-256 initial hash state. -/
def shaInitState : List Nat :=
  [1779033703, 3144134277, 1013904242, 2773480762,
   1359893119, 2600822924, 528734635, 1541459225]

/-- Message-schedule sigma-0. -/
def smallSigma0 (x : Nat) : Nat := (rotr 7 x) ^^^ (rotr 18 x) ^^^ (x >>> 3)

/-- Message-schedule sigma-1. -/
def smallSigma1 (x : Nat) : Nat := (rotr 17 x) ^^^ (rotr 19 x) ^^^ (x >>> 10)

/-- Compression Sigma-0. -/
def bigSigma0 (x : Nat) : Nat := (rotr 2 x) ^^^ (rotr 13 x) ^^^ (rotr 22 x)

/-- Compression Sigma-1. -/
def bigSigma1 (x : Nat) : Nat := (rotr 6 x) ^^^ (rotr 11 x) ^^^ (rotr 25 x)

/-- SHA-256 choice function (complement taken inside 32 bits). -/
def chFun (x y z : Nat) : Nat := (x &&& y) ^^^ ((x ^^^ 0xffffffff) &&& z)

/-- SHA-256 majority function. -/
def majFun (x y z : Nat) : Nat := (x &&& y) ^^^ (x &&& z) ^^^ (y &&& z)

/-- Extend the message schedule; the accumulator holds the words most
recent first, so w[i-16], w[i-15], w[i-7], w[i-2] sit at positions
15, 14, 6, 1. -/
def extendRev (acc : List Nat) : Nat → List Nat
  | 0 => acc
  | k + 1 =>
      extendRev
        (w32 (acc.getD 15 0 + smallSigma0 (acc.getD 14 0) + acc.getD 6 0 +
              smallSigma1 (acc.getD 1 0)) :: acc) k

/-- The 64-word message schedule of one 64-byte block. -/
def schedule (block : List Nat) : List Nat :=
  (extendRev ((chunksOf 4 block).map beToNat).reverse 48).reverse

/-- One SHA-256 round applied to the eight-word working state. -/
def shaRound (st : List Nat) (kw : Nat × Nat) : List Nat :=
  match st with
  | [a, b, c, d, e, f, g, h] =>
      let t1 := w32 (h + bigSigma1 e + chFun e f g + kw.1 + kw.2)
      let t2 := w32 (bigSigma0 a + majFun a b c)
      [w32 (t1 + t2), a, b, c, w32 (d + t1), e, f, g]
  | other => other

/-- SHA-256 compression of one block into the hash state. -/
def compress (h : List Nat) (block : List Nat) : List Nat :=
  let st := (shaK.zip (schedule block)).foldl shaRound h
  (h.zip st).map (fun p => w32 (p.1 + p.2))

/-- SHA-256 padding: append 0x80, zeros to 56 mod 64, and the bit length
as eight big-endian bytes. -/
def sha256pad (msg : List Nat) : List Nat :=
  msg ++ (128 :: List.replicate ((119 - msg.length % 64) % 64) 0) ++ be8 (msg.length * 8)

/-- SHA-256 of a byte list, producing the 32 digest bytes. -/
def sha256 (msg : List Nat) : List Nat :=
  (((chunksOf 64 (sha256pad msg)).foldl compress shaInitState).map be4).flatten

/-- HMAC-SHA256 with a 64-byte block size, the meaning of Python
hmac.new(key, msg, hashlib.sha256).digest(). -/
def hmacSha256 (key msg : List Nat) : List Nat :=
  let k0 := if 64 < key.length then sha256 key else key
  let kp := k0 ++ List.replicate (64 - k0.length) 0
  sha256 ((kp.map (fun b => b ^^^ 0x5c)) ++ sha256 ((kp.map (fun b => b ^^^ 0x36)) ++ msg))

/-! ## ASR binary framing (src/main_gui.py, _pack_asr) -/

/-- Embedding of _pack_asr from src/main_gui.py: version 1, header
length in words (2 with a sequence field, 1 without), byte 1 packing
message type and flags, the 0x10 serialization marker, a reserved zero
byte, the optional signed big-endian sequence, the unsigned big-endian
payload length, and the payload. -/
def _pack_asr (msg_type flags : Nat) (payload : List Nat) (seq : Option Int) : List Nat :=
  let version := 1
  let header_words := match seq with | some _ => 2 | none => 1
  let header := [(version <<< 4) ||| header_words, (msg_type <<< 4) ||| flags, 0x10, 0]
  let ext := match seq with | some s => int32be s | none => []
  header ++ ext ++ u32be payload.length ++ payload

/-- A decoded ASR frame: all the fields of the documented frame layout. -/
structure AsrWireFrame where
  version : Nat
  headerWords : Nat
  msgType : Nat
  flags : Nat
  seq : Option Int
  payloadLen : Nat
  payload : List Nat
deriving DecidableEq, Repr

/-- Signed interpretation of a 32-bit big-endian word value. -/
def decodeSigned32 (r : Nat) : Int :=
  if r < 2147483648 then (r : Int) else (r : Int) - 4294967296

/-- Modelled from the spec: decoder for the frame layout of spec
section 4.2 (the repository contains no decoder, only the encoder):
byte 0 carries version and header length in words, byte 1 carries
message type and flags, bytes 2 and 3 are marker and reserved, a
signed big-endian sequence is present exactly when the header is two
words, then an unsigned big-endian payload length and the payload. -/
def decode_asr (bs : List Nat) : Option AsrWireFrame :=
  match bs with
  | b0 :: b1 :: _marker :: _reserved :: rest =>
    let hw := b0 &&& 15
    if hw = 2 then
      match rest with
      | s0 :: s1 :: s2 :: s3 :: l0 :: l1 :: l2 :: l3 :: payload =>
        let n := beToNat [l0, l1, l2, l3]
        if payload.length = n then
          some ⟨b0 >>> 4, hw, b1 >>> 4, b1 &&& 15,
                some (decodeSigned32 (beToNat [s0, s1, s2, s3])), n, payload⟩
        else none
      | _ => none
    else if hw = 1 then
      match rest with
      | l0 :: l1 :: l2 :: l3 :: payload =>
        let n := beToNat [l0, l1, l2, l3]
        if payload.length = n then
          some ⟨b0 >>> 4, hw, b1 >>> 4, b1 &&& 15, none, n, payload⟩
        else none
      | _ => none
    else none
  | _ => none

/-- Extracting the high nibble of a packed byte recovers the value
shifted in, provided the low nibble value is below 16. -/
theorem shiftLeft_lor_shiftRight (a b : Nat) (hb : b < 16) : ((a <<< 4) ||| b) >>> 4 = a := by
  apply Nat.eq_of_testBit_eq
  intro i
  rw [Nat.testBit_shiftRight, Nat.testBit_lor, Nat.testBit_shiftLeft]
  have h16 : (16 : Nat) ≤ 2 ^ (4 + i) := by
    calc (16 : Nat) = 2 ^ 4 := by norm_num
    _ ≤ 2 ^ (4 + i) := Nat.pow_le_pow_right (by norm_num) (by omega)
  have hble : b < 2 ^ (4 + i) := lt_of_lt_of_le hb h16
  rw [Nat.testBit_lt_two_pow hble]
  simp [Nat.add_sub_cancel_left, show 4 + i - 4 = i by omega, show 4 ≤ 4 + i by omega]

/-- Extracting the low nibble of a packed byte recovers the flags value,
provided it is below 16. -/
theorem shiftLeft_lor_land (a b : Nat) (hb : b < 16) : ((a <<< 4) ||| b) &&& 15 = b := by
  apply Nat.eq_of_testBit_eq
  intro i
  rw [Nat.testBit_land, Nat.testBit_lor, Nat.testBit_shiftLeft]
  have h15 : Nat.testBit 15 i = decide (i < 4) := Nat.testBit_two_pow_sub_one 4 i
  by_cases hi : i < 4
  · have : ¬ 4 ≤ i := by omega
    simp [h15, hi, this]
  · have h16 : (16 : Nat) ≤ 2 ^ i := by
      calc (16 : Nat) = 2 ^ 4 := by norm_num
      _ ≤ 2 ^ i := Nat.pow_le_pow_right (by norm_num) (by omega)
    have hble : b < 2 ^ i := lt_of_lt_of_le hb h16
    simp [h15, hi, Nat.testBit_lt_two_pow hble]

/-- Reassembling the four big-endian bytes of a 32-bit value recovers
the value. -/
theorem beToNat_u32be (n : Nat) (h : n < 4294967296) : beToNat (u32be n) = n := by
  simp only [u32be, beToNat, List.foldl, Nat.shiftRight_eq_div_pow]
  norm_num
  omega

/-- Reading back four big-endian bytes of a value below 2^32 recovers
the value (literal byte-list form). -/
theorem beToNat_bytes (n : Nat) (h : n < 4294967296) :
    beToNat [(n >>> 24) % 256, (n >>> 16) % 256, (n >>> 8) % 256, n % 256] = n := by
  have := beToNat_u32be n h
  simpa [u32be] using this

/-- Signed decoding inverts the two's-complement encoding for sequence
values in the signed 32-bit range. -/
theorem decodeSigned32_int32be (s : Int) (h1 : -2147483648 ≤ s) (h2 : s < 2147483648) :
    decodeSigned32 (beToNat (int32be s)) = s := by
  have hr : ((s % 4294967296).toNat) < 4294967296 := by omega
  rw [int32be, beToNat_u32be _ hr]
  unfold decodeSigned32
  split <;> omega

/-- C9.  Frame-encoding round-trip: decoding the bytes produced by
_pack_asr according to the documented frame layout recovers version 1,
header length 2 words exactly when a sequence is present (else 1), the
given message type and flags, the sequence as a signed 32-bit
big-endian integer when present, the payload length as unsigned 32-bit
big-endian, and the payload bytes, for both header variants. -/
theorem pack_asr_roundtrip (mt fl : Nat) (payload : List Nat) (seq : Option Int)
    (hmt : mt < 16) (hfl : fl < 16) (hlen : payload.length < 4294967296)
    (hseq : ∀ s, seq = some s → -2147483648 ≤ s ∧ s < 2147483648) :
    decode_asr (_pack_asr mt fl payload seq) =
      some ⟨1, (match seq with | some _ => 2 | none => 1), mt, fl, seq,
            payload.length, payload⟩ := by
  have hb1hi : ((mt <<< 4) ||| fl) >>> 4 = mt := shiftLeft_lor_shiftRight mt fl hfl
  have hb1lo : ((mt <<< 4) ||| fl) &&& 15 = fl := shiftLeft_lor_land mt fl hfl
  cases seq with
  | none =>
      have e0 : ((1 <<< 4) ||| 1 : Nat) = 17 := by decide
      have e1 : ((17 : Nat) &&& 15) = 1 := by decide
      have e2 : ((17 : Nat) >>> 4) = 1 := by decide
      simp only [_pack_asr, u32be, e0, List.nil_append, List.cons_append, decode_asr, e1, e2,
        beToNat_bytes payload.length hlen, hb1hi, hb1lo]
      simp
  | some s =>
      obtain ⟨hs1, hs2⟩ := hseq s rfl
      have e0 : ((1 <<< 4) ||| 2 : Nat) = 18 := by decide
      have e1 : ((18 : Nat) &&& 15) = 2 := by decide
      have e2 : ((18 : Nat) >>> 4) = 1 := by decide
      have hr : ((s % 4294967296).toNat) < 4294967296 := by omega
      have hdec : decodeSigned32 (beToNat (int32be s)) = s := decodeSigned32_int32be s hs1 hs2
      rw [int32be, u32be] at hdec
      simp only [_pack_asr, int32be, u32be, e0, List.nil_append, List.cons_append, decode_asr,
        e1, e2, beToNat_bytes payload.length hlen, hb1hi, hb1lo, hdec]
      simp

/-- Witness for the round-trip theorem at a concrete frame of each
header variant, discharging the hypotheses by computation. -/
theorem pack_asr_roundtrip_witness :
    decode_asr (_pack_asr 2 1 [10, 20, 30] (some (-3))) =
      some ⟨1, 2, 2, 1, some (-3), 3, [10, 20, 30]⟩ ∧
    decode_asr (_pack_asr 1 0 [7] none) = some ⟨1, 1, 1, 0, none, 1, [7]⟩ := by
  constructor
  · exact pack_asr_roundtrip 2 1 [10, 20, 30] (some (-3)) (by decide) (by decide) (by decide)
      (by intro s hs; cases hs; constructor <;> decide)
  · exact pack_asr_roundtrip 1 0 [7] none (by decide) (by decide) (by decide)
      (by intro s hs; cases hs)

/-! ## ASR streaming send loop (src/main_gui.py, recognize_speech_volc_ws) -/

/-- One frame as handed to _pack_asr by the recognition loop: message
type, flags, sequence and payload. -/
structure AsrFrameSpec where
  msgType : Nat
  flags : Nat
  seq : Int
  payload : List Nat
deriving DecidableEq, Repr

/-- The audio chunk size used by recognize_speech_volc_ws:
int(SAMPLE_RATE * 2 * 0.2) bytes of 16 kHz 16-bit PCM. -/
def asrChunkSize : Nat := 6400

/-- The send loop of recognize_speech_volc_ws: for each PCM chunk, in
order, send a type-2 flags-1 frame carrying the current sequence
counter, then increment the counter.  Returns the frames sent and the
value of the counter when the loop exits. -/
def asrSendLoop : List (List Nat) → Int → List AsrFrameSpec × Int
  | [], seq => ([], seq)
  | c :: cs, seq =>
      let r := asrSendLoop cs (seq + 1)
      (⟨2, 1, seq, c⟩ :: r.1, r.2)

/-- The frame-level behaviour of recognize_speech_volc_ws on one
utterance: the audio frames sent during streaming (counter starting at
1 over the 6400-byte chunks of the PCM), and the terminating frame
type 2, flags 3, empty payload, sequence equal to the negation of the
counter left by the loop. -/
def recognize_speech_volc_ws (pcm : List Nat) : List AsrFrameSpec × AsrFrameSpec :=
  let r := asrSendLoop (chunksOf asrChunkSize pcm) 1
  (r.1, ⟨2, 3, -r.2, []⟩)

/-- The strictly increasing run s, s+1, ..., s+n-1 of n consecutive
integers; seqRun 1 n is the run 1, 2, ..., n named by the spec. -/
def seqRun (s : Int) : Nat → List Int
  | 0 => []
  | n + 1 => s :: seqRun (s + 1) n

/-- The i-th element of the run starting at s is s + i. -/
theorem seqRun_getD (s : Int) (n i : Nat) (h : i < n) : (seqRun s n).getD i 0 = s + i := by
  induction n generalizing s i with
  | zero => omega
  | succ n ih =>
      cases i with
      | zero => simp [seqRun]
      | succ i =>
          have := ih (s + 1) i (by omega)
          simp only [seqRun, List.getD_cons_succ, this]
          push_cast
          omega

/-- Characterisation of the send loop: the exit counter advances by the
number of chunks, the sequence numbers are the consecutive run from the
start value, the payloads are the chunks in order, and every frame is
type 2 flags 1. -/
theorem asrSendLoop_spec (cs : List (List Nat)) (s : Int) :
    (asrSendLoop cs s).2 = s + cs.length ∧
    (asrSendLoop cs s).1.map AsrFrameSpec.seq = seqRun s cs.length ∧
    (asrSendLoop cs s).1.map AsrFrameSpec.payload = cs ∧
    ∀ f ∈ (asrSendLoop cs s).1, f.msgType = 2 ∧ f.flags = 1 := by
  induction cs generalizing s with
  | nil => simp [asrSendLoop, seqRun]
  | cons c cs ih =>
      obtain ⟨h1, h2, h3, h4⟩ := ih (s + 1)
      refine ⟨?_, ?_, ?_, ?_⟩
      · simp [asrSendLoop, h1]
        omega
      · simp [asrSendLoop, seqRun, h2]
      · simp [asrSendLoop, h3]
      · intro f hf
        simp [asrSendLoop] at hf
        rcases hf with hf | hf
        · subst hf
          exact ⟨rfl, rfl⟩
        · exact h4 f hf

/-- C1.  For every recognition session, the audio-chunk frames are type
2, flags 1, their sequence numbers form the strictly increasing run
1, 2, ..., n with one frame per PCM chunk in order, and the
terminating frame is type 2, flags 3, with empty payload and sequence
exactly -(n + 1) where n is the number of audio chunks sent (hence the
last sequence number sent when any chunk was sent). -/
theorem asr_sequence_numbers (pcm : List Nat) :
    (recognize_speech_volc_ws pcm).1.map AsrFrameSpec.seq =
      seqRun 1 (recognize_speech_volc_ws pcm).1.length ∧
    (recognize_speech_volc_ws pcm).1.map AsrFrameSpec.payload = chunksOf asrChunkSize pcm ∧
    (∀ f ∈ (recognize_speech_volc_ws pcm).1, f.msgType = 2 ∧ f.flags = 1) ∧
    (recognize_speech_volc_ws pcm).2 =
      ⟨2, 3, -(((recognize_speech_volc_ws pcm).1.length : Int) + 1), []⟩ := by
  obtain ⟨h1, h2, h3, h4⟩ := asrSendLoop_spec (chunksOf asrChunkSize pcm) 1
  have hfst : (recognize_speech_volc_ws pcm).1 = (asrSendLoop (chunksOf asrChunkSize pcm) 1).1 :=
    rfl
  have hlen : (recognize_speech_volc_ws pcm).1.length = (chunksOf asrChunkSize pcm).length := by
    conv_rhs => rw [← h3]
    rw [hfst, List.length_map]
  refine ⟨?_, ?_, ?_, ?_⟩
  · rw [hlen, hfst, h2]
  · rw [hfst, h3]
  · intro f hf
    exact h4 f (hfst ▸ hf)
  · show (⟨2, 3, -(asrSendLoop (chunksOf asrChunkSize pcm) 1).2, []⟩ : AsrFrameSpec) = _
    rw [h1, hlen]
    norm_num
    omega

/-! ## Scheme B signing (src/main_gui.py, volc_tts_sign)

The Python function reads the clock once (datetime.utcnow()) and
derives both the timestamp and the date from that single reading; the
embedding therefore takes the date part (strftime percent-Y percent-m
percent-d) and time part (percent-H percent-M percent-S) of that
reading as inputs, with x_date being their \x22T\x22/\x22Z\x22
combination exactly as strftime produces it. -/

/-- Embedding of volc_tts_sign from src/main_gui.py.  Returns the
Authorization header value together with the x-date timestamp. -/
def volc_tts_sign (method path body access_key secret_key service dateStr timeStr : String) :
    String × String :=
  let x_date := dateStr ++ "T" ++ timeStr ++ "Z"
  let date := dateStr
  let body_hash := hexDigest (sha256 (utf8 body))
  let canonical_request := String.intercalate "\n"
    [method, path, "", "host:openspeech.bytedance.com\nx-date:" ++ x_date, "",
     "host;x-date", body_hash]
  let algorithm := "HMAC-SHA256"
  let credential_scope := date ++ "/" ++ service ++ "/request"
  let string_to_sign := String.intercalate "\n"
    [algorithm, x_date, credential_scope, hexDigest (sha256 (utf8 canonical_request))]
  let k_date := hmacSha256 (utf8 ("HMAC-SHA256" ++ secret_key)) (utf8 date)
  let k_service := hmacSha256 k_date (utf8 service)
  let k_signing := hmacSha256 k_service (utf8 "request")
  let signature := hexDigest (hmacSha256 k_signing (utf8 string_to_sign))
  (algorithm ++ " " ++ "Credential=" ++ access_key ++ "/" ++ credential_scope ++ ", " ++
    "SignedHeaders=host;x-date, " ++ "Signature=" ++ signature, x_date)

/-- Modelled from the spec: the Scheme B reference computation of spec
section 4.1, taking the full timestamp X directly and deriving
D = X[0:8]; body hash, canonical request, string to sign, the chained
HMAC key derivation kDate, kService, kSigning, the final signature and
the assembled Authorization header value. -/
def schemeB_reference (method path body access_key secret_key service x_date : String) :
    String :=
  let d := String.mk (x_date.toList.take 8)
  let bodyHash := hexDigest (sha256 (utf8 body))
  let canonical := String.intercalate "\n"
    [method, path, "", "host:openspeech.bytedance.com\nx-date:" ++ x_date, "",
     "host;x-date", bodyHash]
  let stringToSign := String.intercalate "\n"
    ["HMAC-SHA256", x_date, d ++ "/" ++ service ++ "/request",
     hexDigest (sha256 (utf8 canonical))]
  let kDate := hmacSha256 (utf8 ("HMAC-SHA256" ++ secret_key)) (utf8 d)
  let kService := hmacSha256 kDate (utf8 service)
  let kSigning := hmacSha256 kService (utf8 "request")
  let signature := hexDigest (hmacSha256 kSigning (utf8 stringToSign))
  "HMAC-SHA256 " ++ "Credential=" ++ access_key ++ "/" ++ d ++ "/" ++ service ++ "/request" ++
    ", " ++ "SignedHeaders=host;x-date, " ++ "Signature=" ++ signature

/-- C2.  At a fixed UTC timestamp 20240101T120000Z, method POST, path
/api/v1/tts, body text=hello, access key AKIDEXAMPLE, secret key
demo-secret-key and service tts, volc_tts_sign reproduces the
precomputed golden Authorization header byte for byte, agrees with the
Scheme B reference computation at the same inputs, and returns an
x_date equal to the timestamp embedded in the canonical request. -/
theorem volc_tts_sign_golden_vector :
    volc_tts_sign "POST" "/api/v1/tts" "text=hello" "AKIDEXAMPLE" "demo-secret-key" "tts"
        "20240101" "120000" =
      ("HMAC-SHA256 Credential=AKIDEXAMPLE/20240101/tts/request, SignedHeaders=host;x-date, Signature=9825e8e3e0b9de8b033b0f7ae8cf7e16272bed0ca39a7cf633613f4d9ea58933",
       "20240101T120000Z") ∧
    (volc_tts_sign "POST" "/api/v1/tts" "text=hello" "AKIDEXAMPLE" "demo-secret-key" "tts"
        "20240101" "120000").1 =
      schemeB_reference "POST" "/api/v1/tts" "text=hello" "AKIDEXAMPLE" "demo-secret-key" "tts"
        "20240101T120000Z" ∧
    (volc_tts_sign "POST" "/api/v1/tts" "text=hello" "AKIDEXAMPLE" "demo-secret-key" "tts"
        "20240101" "120000").2 = "20240101T120000Z" := by
  refine ⟨by rfl, by rfl, by rfl⟩

/-! ## Scheme A signing (src/generate_prayer_audio.py) -/

/-- Embedding of volc_sign from src/generate_prayer_audio.py: the hex
digest of HMAC-SHA256 over the UTF-8 encodings of the secret and the
body string. -/
def volc_sign (body secret : String) : String :=
  hexDigest (hmacSha256 (utf8 secret) (utf8 body))

/-- The Scheme A request assembly of generate_volc_tts from
src/generate_prayer_audio.py: the payload is serialised once by
json.dumps into the body string taken here as input; the function
signs that string and transmits its UTF-8 encoding as the request
body.  Returns the Authorization header value and the transmitted
body bytes. -/
def generate_volc_tts (bodyJson secret : String) : String × List Nat :=
  let signature := volc_sign bodyJson secret
  ("HMAC-SHA256 " ++ signature, utf8 bodyJson)

/-- C10.  In the Scheme A path the signature transmitted always
verifies against the body transmitted: for every serialised payload
and secret key, the hex digest placed in the Authorization header
equals HMAC-SHA256 of the secret over exactly the bytes sent as the
request body, because one serialisation is both signed and sent. -/
theorem schemeA_signs_transmitted_bytes (bodyJson secret : String) :
    (generate_volc_tts bodyJson secret).1 =
      "HMAC-SHA256 " ++ hexDigest (hmacSha256 (utf8 secret) (generate_volc_tts bodyJson secret).2) :=
  rfl

/-! ## Synthesis streaming consumer (src/main_gui.py, tts_http_stream) -/

/-- Value of one base64 alphabet character. -/
def b64Val (c : Char) : Option Nat :=
  if 'A' ≤ c ∧ c ≤ 'Z' then some (c.toNat - 65)
  else if 'a' ≤ c ∧ c ≤ 'z' then some (c.toNat - 97 + 26)
  else if '0' ≤ c ∧ c ≤ '9' then some (c.toNat - 48 + 52)
  else if c = '+' then some 62
  else if c = '/' then some 63
  else none

/-- Standard base64 decoding of groups of four characters with optional
trailing padding; none models the binascii error raised by Python
base64.b64decode on invalid input. -/
def b64decodeGo : List Char → Option (List Nat)
  | [] => some []
  | a :: b :: c :: d :: rest =>
      match b64Val a, b64Val b with
      | some va, some vb =>
          if c = '=' ∧ d = '=' ∧ rest = [] then
            some [(va <<< 2) ||| (vb >>> 4)]
          else
            match b64Val c with
            | some vc =>
                if d = '=' ∧ rest = [] then
                  some [(va <<< 2) ||| (vb >>> 4), ((vb &&& 15) <<< 4) ||| (vc >>> 2)]
                else
                  match b64Val d with
                  | some vd =>
                      match b64decodeGo rest with
                      | some tail =>
                          some (((va <<< 2) ||| (vb >>> 4)) ::
                                (((vb &&& 15) <<< 4) ||| (vc >>> 2)) ::
                                (((vc &&& 3) <<< 6) ||| vd) :: tail)
                      | none => none
                  | none => none
            | none => none
      | _, _ => none
  | _ => none

/-- Base64 decoding of a string. -/
def b64decode (s : String) : Option (List Nat) := b64decodeGo s.toList

/-- The parse outcome of one response line, as seen by the loop body of
tts_http_stream: a falsy (blank) line; a line on which json.loads
raises; a line whose JSON value is not an object, so that the
attribute lookups raise; or an object carrying the optional code,
data, sentence and usage fields consulted by the loop. -/
inductive LineParse where
  | blank
  | malformed
  | nonObject
  | obj (code : Option Int) (dataF : Option String) (sentence : Option String)
      (usage : Option String)
deriving DecidableEq, Repr

/-- How the consumption loop of one response ends: the success sentinel
code 20000000, a positive error code, the line iterator running out,
or an exception escaping the loop body. -/
inductive StreamEnd where
  | success
  | errorCode
  | exhausted
  | raised
deriving DecidableEq, Repr

/-- Python truthiness of an optional string field: absent or empty is
falsy. -/
def pyTruthy : Option String → Bool
  | none => false
  | some s => s ≠ ""

/-- Embedding of the line loop of tts_http_stream: blank lines are
skipped by the falsy test; a line that fails json.loads, a non-object
line, or invalid base64 raises, ending the whole protected block; a
code-0 line with truthy data extends the accumulator with the decoded
bytes; a code-0 line with truthy sentence is informational; code
20000000 stops with success; a positive code stops with the error
terminal; anything else falls through and the loop continues. -/
def consumeLines : List LineParse → List Nat → List Nat × StreamEnd
  | [], acc => (acc, .exhausted)
  | line :: rest, acc =>
      match line with
      | .blank => consumeLines rest acc
      | .malformed => (acc, .raised)
      | .nonObject => (acc, .raised)
      | .obj code dataF sentence _usage =>
          let c := code.getD 0
          if c = 0 ∧ pyTruthy dataF then
            match b64decode (dataF.getD "") with
            | some bytes => consumeLines rest (acc ++ bytes)
            | none => (acc, .raised)
          else if c = 0 ∧ pyTruthy sentence then consumeLines rest acc
          else if c = 20000000 then (acc, .success)
          else if 0 < c then (acc, .errorCode)
          else consumeLines rest acc

/-- The persistence effect of tts_http_stream: after the protected
block, the accumulated audio is written to the save path exactly when
the accumulator is non-empty and no exception escaped the loop (an
exception jumps to the handler, skipping the save).  The function
itself always returns None. -/
def tts_http_stream (lines : List LineParse) : Option (List Nat) :=
  let r := consumeLines lines []
  match r.2 with
  | .raised => none
  | _ => if r.1 = [] then none else some r.1

/-- Embedding of tts_volc from src/main_gui.py: it builds the request,
delegates to tts_http_stream (which swallows every exception), and
returns the audio save path unconditionally; the pair is the
persistence effect and the returned value, which is never an
exception. -/
def tts_volc (lines : List LineParse) (savePath : String) :
    Option (List Nat) × Except Unit String :=
  (tts_http_stream lines, Except.ok savePath)

/-- Splitting a line list: if the first part exhausts without a
terminal, consumption continues into the second part with the
accumulated audio; if the first part ends at a terminal or raises, the
second part is never looked at. -/
theorem consumeLines_append (l1 l2 : List LineParse) (acc : List Nat) :
    ((consumeLines l1 acc).2 = StreamEnd.exhausted →
      consumeLines (l1 ++ l2) acc = consumeLines l2 (consumeLines l1 acc).1) ∧
    ((consumeLines l1 acc).2 ≠ StreamEnd.exhausted →
      consumeLines (l1 ++ l2) acc = consumeLines l1 acc) := by
  induction l1 generalizing acc with
  | nil => simp [consumeLines]
  | cons line rest ih =>
      cases line with
      | blank => simpa [consumeLines] using ih acc
      | malformed => simp [consumeLines]
      | nonObject => simp [consumeLines]
      | obj code dataF sentence usage =>
          by_cases hc0 : code.getD 0 = 0
          · by_cases hdf : pyTruthy dataF = true
            · cases hb : b64decode (dataF.getD "") with
              | some bytes => simpa [consumeLines, hc0, hdf, hb] using ih (acc ++ bytes)
              | none => simp [consumeLines, hc0, hdf, hb]
            · by_cases hsent : pyTruthy sentence = true
              · simpa [consumeLines, hc0, hdf, hsent] using ih acc
              · have hn20 : code.getD 0 ≠ 20000000 := by omega
                have hnp : ¬ (0 < code.getD 0) := by omega
                simpa [consumeLines, hc0, hdf, hsent, hn20, hnp] using ih acc
          · by_cases h3 : code.getD 0 = 20000000
            · simp [consumeLines, hc0, h3]
            · by_cases h4 : 0 < code.getD 0
              · simp [consumeLines, hc0, h3, h4]
              · simpa [consumeLines, hc0, h3, h4] using ih acc

/-- C3 counterexample.  One malformed line interleaved between two
valid data lines aborts the stream: nothing is persisted, although the
same two valid lines without the malformed one yield all six decoded
audio bytes. -/
theorem malformed_line_aborts_stream :
    tts_http_stream
        [LineParse.obj (some 0) (some "QUJD") none none, LineParse.malformed,
         LineParse.obj (some 0) (some "REVG") none none] = none ∧
    tts_http_stream
        [LineParse.obj (some 0) (some "QUJD") none none,
         LineParse.obj (some 0) (some "REVG") none none] = some [65, 66, 67, 68, 69, 70] := by
  exact ⟨rfl, rfl⟩

/-- C3 amended.  Blank lines are skipped and consumption continues with
subsequent lines; but a line that fails to parse as JSON raises,
stopping consumption at that point, and because the exception escapes
the loop no audio at all is persisted from the stream. -/
theorem blank_skipped_malformed_aborts (pre post : List LineParse)
    (h : (consumeLines pre []).2 = StreamEnd.exhausted) :
    (∀ (l1 l2 : List LineParse) (acc : List Nat),
        consumeLines (l1 ++ LineParse.blank :: l2) acc = consumeLines (l1 ++ l2) acc) ∧
    consumeLines (pre ++ LineParse.malformed :: post) [] =
      ((consumeLines pre []).1, StreamEnd.raised) ∧
    tts_http_stream (pre ++ LineParse.malformed :: post) = none := by
  have hmal : consumeLines (pre ++ LineParse.malformed :: post) [] =
      ((consumeLines pre []).1, StreamEnd.raised) := by
    rw [(consumeLines_append pre (LineParse.malformed :: post) []).1 h]
    simp [consumeLines]
  refine ⟨?_, hmal, ?_⟩
  · intro l1 l2 acc
    by_cases hx : (consumeLines l1 acc).2 = StreamEnd.exhausted
    · rw [(consumeLines_append l1 (LineParse.blank :: l2) acc).1 hx,
        (consumeLines_append l1 l2 acc).1 hx]
      simp [consumeLines]
    · rw [(consumeLines_append l1 (LineParse.blank :: l2) acc).2 hx,
        (consumeLines_append l1 l2 acc).2 hx]
  · simp [tts_http_stream, hmal]

/-- Witness for the amended C3 theorem at a concrete prefix. -/
theorem blank_skipped_malformed_aborts_witness :
    consumeLines
        [LineParse.obj (some 0) (some "QUJD") none none, LineParse.malformed] [] =
      ([65, 66, 67], StreamEnd.raised) ∧
    tts_http_stream
        [LineParse.obj (some 0) (some "QUJD") none none, LineParse.malformed] = none := by
  have h := blank_skipped_malformed_aborts
    [LineParse.obj (some 0) (some "QUJD") none none] [] (by rfl)
  exact ⟨by simpa using h.2.1, by simpa using h.2.2⟩

/-- C4 counterexample.  A stream with one valid data line followed by an
error line (code 55) stops at the error, yet the three bytes
accumulated before the error ARE persisted as the raw-audio artifact,
not discarded. -/
theorem error_code_persists_truncated_audio :
    consumeLines
        [LineParse.obj (some 0) (some "QUJD") none none,
         LineParse.obj (some 55) none none none] [] = ([65, 66, 67], StreamEnd.errorCode) ∧
    tts_http_stream
        [LineParse.obj (some 0) (some "QUJD") none none,
         LineParse.obj (some 55) none none none] = some [65, 66, 67] := by
  exact ⟨rfl, rfl⟩

/-- C4 amended.  A line with positive code (other than the success
sentinel) stops consumption there, ignoring every later line; the
audio accumulated before it is then persisted as a truncated artifact
when non-empty, and nothing is persisted only when the accumulator is
empty. -/
theorem error_code_stops_and_persists (pre post : List LineParse) (code : Int)
    (dataF sentence usage : Option String)
    (hexh : (consumeLines pre []).2 = StreamEnd.exhausted)
    (hpos : 0 < code) (hsent : code ≠ 20000000) :
    consumeLines (pre ++ LineParse.obj (some code) dataF sentence usage :: post) [] =
      ((consumeLines pre []).1, StreamEnd.errorCode) ∧
    tts_http_stream (pre ++ LineParse.obj (some code) dataF sentence usage :: post) =
      (if (consumeLines pre []).1 = [] then none else some (consumeLines pre []).1) := by
  have hstop : consumeLines (pre ++ LineParse.obj (some code) dataF sentence usage :: post) [] =
      ((consumeLines pre []).1, StreamEnd.errorCode) := by
    rw [(consumeLines_append pre (LineParse.obj (some code) dataF sentence usage :: post) []).1
      hexh]
    have hc0 : ¬ (code = 0) := by omega
    simp [consumeLines, hc0, hsent, hpos]
  refine ⟨hstop, ?_⟩
  simp [tts_http_stream, hstop]

/-- Witness for the amended C4 theorem at a concrete stream. -/
theorem error_code_stops_and_persists_witness :
    consumeLines
        [LineParse.obj (some 0) (some "QUJD") none none,
         LineParse.obj (some 55) none none none,
         LineParse.obj (some 0) (some "REVG") none none] [] = ([65, 66, 67], StreamEnd.errorCode) ∧
    tts_http_stream
        [LineParse.obj (some 0) (some "QUJD") none none,
         LineParse.obj (some 55) none none none,
         LineParse.obj (some 0) (some "REVG") none none] = some [65, 66, 67] := by
  have h := error_code_stops_and_persists
    [LineParse.obj (some 0) (some "QUJD") none none]
    [LineParse.obj (some 0) (some "REVG") none none] 55 none none none
    (by rfl) (by norm_num) (by norm_num)
  exact ⟨by simpa using h.1, by simpa using h.2⟩

/-- C7 counterexample.  When the stream yields no audio (empty line
list, or a single error line), nothing is persisted, yet tts_volc
still returns the save path as a normal value: no synthesis error is
raised, contradicting the claimed failure on an empty accumulator. -/
theorem empty_accumulator_no_error :
    tts_volc [] "output/tmp/tts_1.pcm" = (none, Except.ok "output/tmp/tts_1.pcm") ∧
    tts_volc [LineParse.obj (some 55) none none none] "output/tmp/tts_1.pcm" =
      (none, Except.ok "output/tmp/tts_1.pcm") := by
  exact ⟨rfl, rfl⟩

/-- C7 amended.  When consumption ends without an escaping exception,
a non-empty accumulator is persisted as the raw-audio artifact and the
save path is returned; an empty accumulator leads to no artifact being
persisted, but the call still returns the save path normally instead
of failing with a synthesis error. -/
theorem tts_volc_persistence (lines : List LineParse) (savePath : String)
    (hok : (consumeLines lines []).2 ≠ StreamEnd.raised) :
    (tts_volc lines savePath).2 = Except.ok savePath ∧
    ((consumeLines lines []).1 ≠ [] →
      (tts_volc lines savePath).1 = some (consumeLines lines []).1) ∧
    ((consumeLines lines []).1 = [] → (tts_volc lines savePath).1 = none) := by
  refine ⟨rfl, ?_, ?_⟩
  · intro hne
    cases ht : (consumeLines lines []).2 <;>
      simp_all [tts_volc, tts_http_stream]
  · intro he
    cases ht : (consumeLines lines []).2 <;>
      simp_all [tts_volc, tts_http_stream]

/-- Witness for the amended C7 theorem at concrete streams. -/
theorem tts_volc_persistence_witness :
    (tts_volc [LineParse.obj (some 0) (some "QUJD") none none] "out.pcm").1 = some [65, 66, 67] ∧
    (tts_volc [LineParse.obj (some 0) (some "QUJD") none none] "out.pcm").2 =
      Except.ok "out.pcm" := by
  have h := tts_volc_persistence [LineParse.obj (some 0) (some "QUJD") none none] "out.pcm"
    (by decide)
  exact ⟨h.2.1 (by decide), h.1⟩

/-! ## Resource release in tts_http_stream (src/main_gui.py) -/

/-- What the finally block of tts_http_stream achieves: whether
response.close() and session.close() ran, and whether the finally
block itself raised. -/
structure CleanupOutcome where
  responseClosed : Bool
  sessionClosed : Bool
  finallyRaised : Bool
deriving DecidableEq, Repr

/-- The finally block of tts_http_stream runs response.close() and then
session.close().  The local name response is bound only if
session.post returned; when it is unbound, the first statement raises
a NameError, so session.close() is skipped and the finally block
itself fails. -/
def ttsFinallyBlock (responseBound : Bool) : CleanupOutcome :=
  match responseBound with
  | true => ⟨true, true, false⟩
  | false => ⟨false, false, true⟩

/-- Control flow of tts_http_stream around the protected block: the
session is created, then the try body runs session.post (whose outcome
is the input; any exception inside the body after a successful post is
caught by the handler), and the finally block runs with response bound
exactly when the post returned. -/
def tts_http_stream_cleanup (postOutcome : Except Unit Unit) : CleanupOutcome :=
  ttsFinallyBlock (match postOutcome with | Except.ok _ => true | Except.error _ => false)

/-- C8.  Cleanup is deterministic only on paths where the POST itself
succeeded; when session.post raises, the local response was never
bound, the finally block raises instead of cleaning up, and
session.close() never runs — the claim describes the evident intent,
and the code fails it on that path. -/
theorem post_failure_cleanup_raises :
    tts_http_stream_cleanup (Except.error ()) =
      ⟨false, false, true⟩ ∧
    tts_http_stream_cleanup (Except.ok ()) = ⟨true, true, false⟩ := by
  exact ⟨rfl, rfl⟩

/-! ## Session pipeline (src/main_gui.py process_interaction and
src/generate_prayer_audio.py generate_gospel_text) -/

/-- Whitespace test matching Python str.strip default. -/
def isPySpace (c : Char) : Bool :=
  c = ' ' ∨ c = '\t' ∨ c = '\n' ∨ c = '\r' ∨ c = '\x0b' ∨ c = '\x0c'

/-- Python str.strip(): remove leading and trailing whitespace. -/
def pyStrip (s : String) : String :=
  String.mk (((s.toList.dropWhile isPySpace).reverse.dropWhile isPySpace).reverse)

/-- The observable outcome of one GUI session body. -/
inductive SessionOutcome where
  | noSpeech
  | llmErrorPropagated
  | synthesized (spoken : String)
deriving DecidableEq, Repr

/-- Embedding of process_interaction from src/main_gui.py.  Inputs:
the typed text (if any), the transcript the recognizer returned, and
the outcome of the generative-model call (ok carries resp.text, error
models any exception from the call).  Output: the session outcome and
whether done() ran (it always does, via the finally clause).  The
generative call is NOT wrapped in any handler, so its exception
propagates and synthesis is never reached. -/
def process_interaction (text_input : Option String) (asrResult : Option String)
    (llm : Except Unit String) : SessionOutcome × Bool :=
  let user_text := if pyTruthy text_input then text_input else asrResult
  if ¬ pyTruthy user_text then (SessionOutcome.noSpeech, true)
  else
    match llm with
    | Except.error _ => (SessionOutcome.llmErrorPropagated, true)
    | Except.ok t => (SessionOutcome.synthesized (pyStrip t), true)

/-- Embedding of generate_gospel_text from
src/generate_prayer_audio.py.  Inputs: the user text, the configured
key (none models a missing attribute), and the generative call outcome
(ok carries response.text; error models any exception inside the try
block).  A missing key, an exception, or a falsy response.text all
fall back to returning the user input verbatim. -/
def generate_gospel_text (user_input : String) (geminiKey : Option String)
    (llm : Except Unit String) : String :=
  if ¬ pyTruthy geminiKey then user_input
  else
    match llm with
    | Except.error _ => user_input
    | Except.ok t => if t ≠ "" then pyStrip t else user_input

/-- C6 counterexample.  A voice session whose recognizer returned the
non-empty transcript hello (no typed text) and whose generative call
errors ends with the exception propagating: the outcome is not
synthesis of the verbatim transcript, so no text-only fallback happens
in the GUI pipeline — while the interactive script collaborator
generate_gospel_text does fall back to the verbatim input on the same
failure. -/
theorem llm_error_no_fallback_in_gui :
    process_interaction none (some "hello") (Except.error ()) =
      (SessionOutcome.llmErrorPropagated, true) ∧
    SessionOutcome.llmErrorPropagated ≠ SessionOutcome.synthesized "hello" ∧
    generate_gospel_text "hello" (some "key") (Except.error ()) = "hello" := by
  refine ⟨rfl, by decide, rfl⟩

/-- C6 amended.  Only the interactive script falls back to the
verbatim input when the text-generation collaborator is unavailable or
errors; the GUI session pipeline has no such fallback, neither for a
session with a non-empty recognizer transcript nor for a typed-text
session: the error propagates, synthesis is never reached, and only
the in-flight cleanup (done) still runs. -/
theorem llm_error_fallback_located (t u : String) (geminiKey : Option String)
    (ht : t ≠ "") :
    process_interaction none (some t) (Except.error ()) =
      (SessionOutcome.llmErrorPropagated, true) ∧
    process_interaction (some t) none (Except.error ()) =
      (SessionOutcome.llmErrorPropagated, true) ∧
    generate_gospel_text u geminiKey (Except.error ()) = u := by
  refine ⟨?_, ?_, ?_⟩
  · simp [process_interaction, pyTruthy, ht]
  · simp [process_interaction, pyTruthy, ht]
  · cases geminiKey with
    | none => rfl
    | some k => simp [generate_gospel_text, pyTruthy]

/-- Witness for the amended C6 theorem at a concrete non-empty
transcript. -/
theorem llm_error_fallback_located_witness :
    process_interaction none (some "take this cup") (Except.error ()) =
      (SessionOutcome.llmErrorPropagated, true) ∧
    process_interaction (some "take this cup") none (Except.error ()) =
      (SessionOutcome.llmErrorPropagated, true) ∧
    generate_gospel_text "a reading" (some "key") (Except.error ()) = "a reading" := by
  exact llm_error_fallback_located "take this cup" "a reading" (some "key") (by decide)

/-! ## Session orchestrator (src/main_gui.py, class App)

The Tk event loop delivers key and button events one at a time on the
control thread; the orchestrator is therefore a sequential state
machine over the processing and space flags, and each handler reports
how many worker threads it started. -/

/-- The mutable orchestrator state: the in-flight flag and the
space-held flag. -/
structure AppState where
  processing : Bool
  space : Bool
deriving DecidableEq, Repr

/-- The events the orchestrator reacts to: a space key press (with
whether keyboard focus is on the text entry), a space key release, and
a typed-text submission carrying the entry content. -/
inductive AppEvent where
  | down (focusOnEntry : Bool)
  | up
  | sendText (text : String)
deriving DecidableEq, Repr

namespace App

/-- Embedding of App.send_text: bail out while processing or when the
stripped entry text is empty; otherwise set the in-flight flag and
start one worker on process_interaction. -/
def send_text (s : AppState) (text : String) : AppState × Nat :=
  if s.processing then (s, 0)
  else if pyStrip text = "" then (s, 0)
  else ({ s with processing := true }, 1)

/-- Embedding of App.down: ignore the press while processing or while
space is already held or when focus is on the entry; otherwise mark
space held and start recording (no worker). -/
def down (s : AppState) (focusOnEntry : Bool) : AppState × Nat :=
  if s.processing ∨ s.space then (s, 0)
  else if focusOnEntry then (s, 0)
  else ({ s with space := true }, 0)

/-- Embedding of App.up: ignore the release unless space is held;
otherwise clear space, set the in-flight flag and start one worker on
process_interaction. -/
def up (s : AppState) : AppState × Nat :=
  if ¬ s.space then (s, 0)
  else (⟨true, false⟩, 1)

end App

/-- Dispatch of one event to its handler. -/
def appStep (s : AppState) : AppEvent → AppState × Nat
  | AppEvent.down f => App.down s f
  | AppEvent.up => App.up s
  | AppEvent.sendText t => App.send_text s t

/-- Run a sequence of events, accumulating the number of workers
started. -/
def runApp (s : AppState) : List AppEvent → AppState × Nat
  | [] => (s, 0)
  | e :: es =>
      let r := appStep s e
      let r2 := runApp r.1 es
      (r2.1, r.2 + r2.2)

/-- The idle orchestrator state: not processing, space not held. -/
def idleApp : AppState := ⟨false, false⟩

/-- C5.  While the in-flight flag is set, a space press and a typed
submission are both no-ops that start no worker; and two trigger
events fired back-to-back from idle — a non-empty submission, or a
press-and-release, each followed by any further event — yield exactly
one execution of the pipeline. -/
theorem second_trigger_noop (s : AppState) (hs : s.processing = true) (f : Bool)
    (t t2 : String) (e2 : AppEvent) (ht : pyStrip t ≠ "") :
    appStep s (AppEvent.down f) = (s, 0) ∧
    appStep s (AppEvent.sendText t2) = (s, 0) ∧
    (runApp idleApp [AppEvent.sendText t, e2]).2 = 1 ∧
    (runApp idleApp [AppEvent.down false, AppEvent.up, e2]).2 = 1 := by
  refine ⟨?_, ?_, ?_, ?_⟩
  · simp [appStep, App.down, hs]
  · simp [appStep, App.send_text, hs]
  · cases e2 with
    | down f2 => simp [runApp, appStep, App.send_text, App.down, App.up, idleApp, ht]
    | up => simp [runApp, appStep, App.send_text, App.down, App.up, idleApp, ht]
    | sendText t3 => simp [runApp, appStep, App.send_text, App.down, App.up, idleApp, ht]
  · cases e2 with
    | down f2 => simp [runApp, appStep, App.send_text, App.down, App.up, idleApp]
    | up => simp [runApp, appStep, App.send_text, App.down, App.up, idleApp]
    | sendText t3 => simp [runApp, appStep, App.send_text, App.down, App.up, idleApp]

/-- Witness for the trigger-gating theorem at a concrete in-flight
state and concrete events. -/
theorem second_trigger_noop_witness :
    appStep ⟨true, false⟩ (AppEvent.down false) = (⟨true, false⟩, 0) ∧
    appStep ⟨true, false⟩ (AppEvent.sendText "amen") = (⟨true, false⟩, 0) ∧
    (runApp idleApp [AppEvent.sendText "amen", AppEvent.sendText "again"]).2 = 1 ∧
    (runApp idleApp [AppEvent.down false, AppEvent.up, AppEvent.sendText "again"]).2 = 1 := by
  exact second_trigger_noop ⟨true, false⟩ rfl false "amen" "amen"
    (AppEvent.sendText "again") (by decide)
